import Mathlib

/-!
Verification of the license-enforcement and entitlement engine of the
Indian SMB ERP repository: a shallow embedding in Lean 4 of the code in
`src/license/license_manager.py`, `src/license/machine_fingerprint.py`,
`src/core/permissions.py`, `src/database/models.py` and `src/core/auth.py`,
together with theorems settling the spec's claims about it.

Modelling conventions:
- Machine integers and dates are `Nat` (dates as day numbers; `timedelta`
  addition is `Nat` addition, `strptime`/`isoformat` round-trips are elided).
- `hashlib.sha256` is implemented for real (FIPS 180-4) over `Nat` bytes, so
  fingerprints are computed exactly as the code computes them.
- Fallible operations return `Except String` carrying the Python exception
  message, or `Option`.
- The SQLite license table is a `List LicenseRecord` in insertion (rowid)
  order; `SELECT ... LIMIT 1` is `List.find?`, `INSERT` appends, autoincrement
  ids are modelled by `max id + 1`.
-/

set_option maxRecDepth 100000

instance {ε α : Type} [DecidableEq ε] [DecidableEq α] :
    DecidableEq (Except ε α) := fun a b =>
  match a, b with
  | .error e1, .error e2 =>
    if h : e1 = e2 then .isTrue (by rw [h]) else .isFalse (by simp [h])
  | .error _, .ok _ => .isFalse (by simp)
  | .ok _, .error _ => .isFalse (by simp)
  | .ok a1, .ok a2 =>
    if h : a1 = a2 then .isTrue (by rw [h]) else .isFalse (by simp [h])

/-! ## SHA-256 (hashlib.sha256, FIPS 180-4), over `Nat` bytes -/

def w32 (n : Nat) : Nat := n % 4294967296

def rotr (r x : Nat) : Nat := (x >>> r) ||| w32 (x <<< (32 - r))

def bnot32 (x : Nat) : Nat := x ^^^ 4294967295

def sigma0 (x : Nat) : Nat := rotr 7 x ^^^ rotr 18 x ^^^ (x >>> 3)

def sigma1 (x : Nat) : Nat := rotr 17 x ^^^ rotr 19 x ^^^ (x >>> 10)

def bigSigma0 (x : Nat) : Nat := rotr 2 x ^^^ rotr 13 x ^^^ rotr 22 x

def bigSigma1 (x : Nat) : Nat := rotr 6 x ^^^ rotr 11 x ^^^ rotr 25 x

def chF (e f g : Nat) : Nat := (e &&& f) ^^^ (bnot32 e &&& g)

def majF (a b c : Nat) : Nat := (a &&& b) ^^^ (a &&& c) ^^^ (b &&& c)

/-- The 64 SHA-256 round constants of FIPS 180-4, in decimal. -/
def sha256K : List Nat :=
  [1116352408, 1899447441, 3049323471, 3921009573, 961987163, 1508970993,
   2453635748, 2870763221, 3624381080, 310598401, 607225278, 1426881987,
   1925078388, 2162078206, 2614888103, 3248222580, 3835390401, 4022224774,
   264347078, 604807628, 770255983, 1249150122, 1555081692, 1996064986,
   2554220882, 2821834349, 2952996808, 3210313671, 3336571891, 3584528711,
   113926993, 338241895, 666307205, 773529912, 1294757372, 1396182291,
   1695183700, 1986661051, 2177026350, 2456956037, 2730485921, 2820302411,
   3259730800, 3345764771, 3516065817, 3600352804, 4094571909, 275423344,
   430227734, 506948616, 659060556, 883997877, 958139571, 1322822218,
   1537002063, 1747873779, 1955562222, 2024104815, 2227730452, 2361852424,
   2428436474, 2756734187, 3204031479, 3329325298]

structure Hash8 where
  a : Nat
  b : Nat
  c : Nat
  d : Nat
  e : Nat
  f : Nat
  g : Nat
  h : Nat

/-- The eight initial hash values of FIPS 180-4, in decimal. -/
def sha256InitH : Hash8 :=
  ⟨1779033703, 3144134277, 1013904242, 2773480762,
   1359893119, 2600822924, 528734635, 1541459225⟩

/-- Big-endian 8-byte encoding of the message bit length. -/
def lenBytes64 (n : Nat) : List Nat :=
  [w32 (n >>> 56) % 256, (n >>> 48) % 256, (n >>> 40) % 256, (n >>> 32) % 256,
   (n >>> 24) % 256, (n >>> 16) % 256, (n >>> 8) % 256, n % 256]

/-- Padding: append 0x80, zeros to 56 mod 64, then the 8-byte bit length. -/
def padBytes (msg : List Nat) : List Nat :=
  let l := msg.length
  let zeros := (119 - l % 64) % 64
  msg ++ 128 :: List.replicate zeros 0 ++ lenBytes64 (8 * l)

/-- Split into `k` chunks of `sz` bytes each. -/
def chunksAux (sz : Nat) : Nat → List Nat → List (List Nat)
  | 0, _ => []
  | k + 1, l => l.take sz :: chunksAux sz k (l.drop sz)

def toBlocks (l : List Nat) : List (List Nat) := chunksAux 64 (l.length / 64) l

/-- Big-endian 32-bit words from 64 bytes. -/
def blockWordsAux : Nat → List Nat → List Nat
  | 0, _ => []
  | k + 1, l =>
    ((l.getD 0 0 <<< 24) + (l.getD 1 0 <<< 16) + (l.getD 2 0 <<< 8) + l.getD 3 0)
      :: blockWordsAux k (l.drop 4)

def blockWords (l : List Nat) : List Nat := blockWordsAux 16 l

/-- Message-schedule extension, on a reversed word list (head = newest word). -/
def extendLoop : Nat → List Nat → List Nat
  | 0, rw => rw
  | k + 1, rw =>
    let nw := w32 (sigma1 (rw.getD 1 0) + rw.getD 6 0 + sigma0 (rw.getD 14 0) +
      rw.getD 15 0)
    extendLoop k (nw :: rw)

def schedule (ws : List Nat) : List Nat := (extendLoop 48 ws.reverse).reverse

def sha256Round (st : Hash8) (kw : Nat × Nat) : Hash8 :=
  let t1 := w32 (st.h + bigSigma1 st.e + chF st.e st.f st.g + kw.1 + kw.2)
  let t2 := w32 (bigSigma0 st.a + majF st.a st.b st.c)
  ⟨w32 (t1 + t2), st.a, st.b, st.c, w32 (st.d + t1), st.e, st.f, st.g⟩

def compressBlock (hv : Hash8) (block : List Nat) : Hash8 :=
  let st := (sha256K.zip (schedule (blockWords block))).foldl sha256Round hv
  ⟨w32 (hv.a + st.a), w32 (hv.b + st.b), w32 (hv.c + st.c), w32 (hv.d + st.d),
   w32 (hv.e + st.e), w32 (hv.f + st.f), w32 (hv.g + st.g), w32 (hv.h + st.h)⟩

/-- The eight 32-bit words of the SHA-256 digest of a byte list. -/
def sha256Words (msg : List Nat) : List Nat :=
  let hv := (toBlocks (padBytes msg)).foldl compressBlock sha256InitH
  [hv.a, hv.b, hv.c, hv.d, hv.e, hv.f, hv.g, hv.h]

/-- Lowercase hex digit, as produced by `hexdigest()`. -/
def hexDigit (n : Nat) : Char :=
  if n < 10 then Char.ofNat (48 + n) else Char.ofNat (87 + n)

/-- Exactly `k` lowercase hex digits of `n`, most significant first. -/
def toHexFixed : Nat → Nat → List Char
  | 0, _ => []
  | k + 1, n => toHexFixed k (n / 16) ++ [hexDigit (n % 16)]

/-- The 64 characters of `hashlib.sha256(...).hexdigest()`. -/
def sha256HexChars (msg : List Nat) : List Char :=
  ((sha256Words msg).map (toHexFixed 8)).flatten

/-- Bytes of one code point in UTF-8 (Python `str.encode()`). -/
def utf8Bytes (c : Char) : List Nat :=
  let n := c.toNat
  if n < 128 then [n]
  else if n < 2048 then [192 ||| (n >>> 6), 128 ||| (n &&& 63)]
  else if n < 65536 then
    [224 ||| (n >>> 12), 128 ||| ((n >>> 6) &&& 63), 128 ||| (n &&& 63)]
  else
    [240 ||| (n >>> 18), 128 ||| ((n >>> 12) &&& 63),
     128 ||| ((n >>> 6) &&& 63), 128 ||| (n &&& 63)]

def strBytes (s : String) : List Nat := (s.data.map utf8Bytes).flatten

/-- Computes `hashlib.sha256(s.encode()).hexdigest()` as a list of characters. -/
def sha256HexOfString (s : String) : List Char := sha256HexChars (strBytes s)

/-- FIPS 180-4 test vector, validating the SHA-256 implementation. -/
example : String.mk (sha256HexOfString "abc") =
    "ba7816bf8f01cfea414140de5dae2223b00361a396177a9cb410ff61f20015ad" := by
  decide

example : String.mk (sha256HexOfString "") =
    "e3b0c44298fc1c149afbf4c8996fb92427ae41e4649b934ca495991b7852b855" := by
  decide

/-! ## Host model

The observable host attributes the two fingerprint implementations read:
`platform.node()`, `platform.machine()`, `platform.processor()`,
`uuid.getnode()` (a 48-bit MAC-derived integer), `platform.system()`, and
the results of the three Windows `wmic` queries in
`src/license/machine_fingerprint.py` (`some v` when the query succeeds with
at least two output lines, whose second line strips to `v`; `none` when the
subprocess fails or yields at most one line, which the code swallows). -/

structure Host where
  node : String
  machine : String
  processor : String
  nodeId : Nat
  system : String
  winCpuId : Option String
  winDiskSerial : Option String
  winMbSerial : Option String

namespace MachineFingerprint

/-- Embeds `MachineFingerprint.generate` in `src/license/license_manager.py`:
sha256 of `node|machine|processor|str(uuid.getnode())`, first 32 hex chars. -/
def generate (host : Host) : String :=
  let fingerprint_str := String.intercalate "|"
    [host.node, host.machine, host.processor, Nat.repr host.nodeId]
  String.mk ((sha256HexOfString fingerprint_str).take 32)

/-- Embeds `MachineFingerprint.verify`: recompute and compare for equality. -/
def verify (stored_fingerprint : String) (host : Host) : Bool :=
  generate host == stored_fingerprint

end MachineFingerprint

/-- Uppercase hex digit, as produced by Python `'%X'` formatting. -/
def hexDigitU (n : Nat) : Char :=
  if n < 10 then Char.ofNat (48 + n) else Char.ofNat (55 + n)

/-- Exactly `k` uppercase hex digits of `n`, most significant first
(`'%0<k>X' % n` for `n < 16^k`; `uuid.getnode()` is 48-bit, so `k = 12`
never truncates). -/
def toHexFixedU : Nat → Nat → List Char
  | 0, _ => []
  | k + 1, n => toHexFixedU k (n / 16) ++ [hexDigitU (n % 16)]

/-- Consecutive pairs of characters, as the slices `s[i:i+2]`. -/
def pairUp : List Char → List String
  | a :: b :: rest => String.mk [a, b] :: pairUp rest
  | [a] => [String.mk [a]]
  | [] => []

/-- Embeds `get_mac_address` in `src/license/machine_fingerprint.py`:
`':'.join(('%012X' % uuid.getnode())[i:i+2] for i in range(0, 12, 2))`. -/
def get_mac_address (host : Host) : String :=
  String.intercalate ":" (pairUp (toHexFixedU 12 host.nodeId))

/-- Embeds `get_cpu_id`: the second `wmic cpu get processorid` output line on
Windows when available, else `platform.processor()`. -/
def get_cpu_id (host : Host) : String :=
  if host.system = "Windows" then
    match host.winCpuId with
    | some v => v
    | none => host.processor
  else host.processor

/-- Embeds `get_disk_serial`: the second `wmic diskdrive get serialnumber` line on
Windows when available, else the empty string. -/
def get_disk_serial (host : Host) : String :=
  if host.system = "Windows" then
    match host.winDiskSerial with
    | some v => v
    | none => ""
  else ""

/-- Embeds `get_motherboard_serial`: analogous to `get_disk_serial`. -/
def get_motherboard_serial (host : Host) : String :=
  if host.system = "Windows" then
    match host.winMbSerial with
    | some v => v
    | none => ""
  else ""

/-- Python whitespace for `str.strip()` (the ASCII cases). -/
def pyIsSpace (c : Char) : Bool :=
  c == ' ' || c == '\t' || c == '\n' || c == '\x0d' || c == '\x0b' || c == '\x0c'

/-- Python `str.strip()` with no argument. -/
def pyStrip (s : String) : String :=
  String.mk (((s.data.dropWhile pyIsSpace).reverse.dropWhile pyIsSpace).reverse)

/-- Embeds `generate_fingerprint` in `src/license/machine_fingerprint.py`: join the
components whose `strip()` is non-empty with `|`, sha256, first 32 hex
chars.  (`c.strip()` truthiness keeps the original, unstripped `c`.) -/
def generate_fingerprint (host : Host) : String :=
  let components := [host.node, host.machine, get_cpu_id host,
    get_mac_address host, get_disk_serial host, get_motherboard_serial host]
  let valid_components := components.filter (fun c => pyStrip c ≠ "")
  let fingerprint_source := String.intercalate "|" valid_components
  String.mk ((sha256HexOfString fingerprint_source).take 32)

/-- Embeds `verify_fingerprint` in `src/license/machine_fingerprint.py`. -/
def verify_fingerprint (stored : String) (host : Host) : Bool :=
  generate_fingerprint host == stored

/-- A sample non-Windows host used for concrete evaluations. -/
def host0 : Host :=
  { node := "pc", machine := "x86", processor := "", nodeId := 1,
    system := "Linux", winCpuId := none, winDiskSerial := none,
    winMbSerial := none }

example : MachineFingerprint.generate host0 =
    "9be37707388bec3dd766b90848608f98" := by decide

example : generate_fingerprint host0 =
    "cba00f5ddf7ba459daa093d5ad8446e2" := by decide

/-! ## License plans (`LicensePlans` in `src/license/license_manager.py`) -/

structure PlanConfig where
  name : String
  max_users : Nat
  modules : List String
  duration_days : Nat
  price : Nat

def PLAN_CONFIG (plan : String) : Option PlanConfig :=
  if plan = "TRIAL" then
    some ⟨"Trial", 1, ["dashboard", "billing", "inventory"], 30, 0⟩
  else if plan = "BASIC" then
    some ⟨"Basic ERP", 1, ["dashboard", "billing", "inventory", "customers"],
      365, 4999⟩
  else if plan = "PRO" then
    some ⟨"Pro ERP", 3, ["dashboard", "billing", "inventory", "customers",
      "vendors", "accounts", "reports"], 365, 9999⟩
  else if plan = "ENTERPRISE" then
    some ⟨"Enterprise ERP", 999, ["dashboard", "billing", "inventory",
      "customers", "vendors", "accounts", "reports", "settings", "users"],
      365, 24999⟩
  else none

/-! ## License key format and decoding

`_validate_key_format` applies the Python regex
`^[A-Z0-9]{4}-[A-Z0-9]{4}-[A-Z0-9]{4}-[A-Z0-9]{4}$` to `key.upper()`.
Python `$` matches at the end of the string or just before one trailing
newline, so the regex is modelled as: the uppercased character list matches
the plain 19-character shape, or it ends in `'\n'` and the list without
that newline matches the shape. -/

/-- Models the ASCII fragment of Python `str.upper()` (via `Char.toUpper`,
which maps exactly `a`-`z` to `A`-`Z` and fixes every other character).
This agrees with Python's `str.upper()` on ASCII strings, but Python's full
Unicode case mapping can move non-ASCII letters into `A-Z` (for example
`'ſ'.upper() = 'S'` and `'ı'.upper() = 'I'`), so negative statements about
the format check below quantify only over ASCII keys, where this model and
the program agree character for character. -/
def pythonUpper (s : String) : List Char := s.data.map Char.toUpper

/-- Strings of ASCII characters only: the domain on which `pythonUpper` is
exactly Python's `str.upper()`. -/
def isAsciiString (s : String) : Bool := s.data.all (fun c => c.toNat < 128)

def isKeyChar (c : Char) : Bool :=
  ('A' ≤ c && c ≤ 'Z') || ('0' ≤ c && c ≤ '9')

/-- The literal shape `[A-Z0-9]{4}-[A-Z0-9]{4}-[A-Z0-9]{4}-[A-Z0-9]{4}`. -/
def keyShape (l : List Char) : Bool :=
  match l with
  | [c0, c1, c2, c3, d0, c4, c5, c6, c7, d1, c8, c9, c10, c11, d2,
     c12, c13, c14, c15] =>
    isKeyChar c0 && isKeyChar c1 && isKeyChar c2 && isKeyChar c3 &&
    d0 == '-' &&
    isKeyChar c4 && isKeyChar c5 && isKeyChar c6 && isKeyChar c7 &&
    d1 == '-' &&
    isKeyChar c8 && isKeyChar c9 && isKeyChar c10 && isKeyChar c11 &&
    d2 == '-' &&
    isKeyChar c12 && isKeyChar c13 && isKeyChar c14 && isKeyChar c15
  | _ => false

/-- The `$`-before-final-newline alternative admitted by the Python regex. -/
def keyShapeNL (l : List Char) : Bool :=
  match l.getLast? with
  | some c => c == '\n' && keyShape l.dropLast
  | none => false

/-- Embeds `LicenseManager._validate_key_format`.  Exact on ASCII keys.  On
non-ASCII input it can under-accept relative to the program: a key such as
`"ſAAA-AAAA-AAAA-AAAA"` is accepted by the real regex (Python `str.upper()`
maps `ſ` to `S`) but rejected by this model, whose `pythonUpper` fixes
non-ASCII characters. -/
def validate_key_format (key : String) : Bool :=
  keyShape (pythonUpper key) || keyShapeNL (pythonUpper key)

/-- The decoded license payload: `_decode_license_key` only ever sets
`plan`; the other dict entries looked up by `activate` are absent. -/
structure DecodedLicense where
  plan : String
  expiry : Option Nat
  max_users : Option Nat
  modules : Option (List String)
deriving DecidableEq

/-- The `plan_codes` table in `_decode_license_key`, with its
`.get(code, BASIC)` fallback. -/
def planFromCode (code : List Char) : String :=
  if code = "TRIA".data then "TRIAL"
  else if code = "BASI".data then "BASIC"
  else if code = "PROF".data then "PRO"
  else if code = "ENTR".data then "ENTERPRISE"
  else "BASIC"

/-- Embeds `LicenseManager._decode_license_key`: uppercase, drop the hyphens
(`replace('-', '')`), require 16 characters, and map the first four to a
plan. -/
def decode_license_key (key : String) : Option DecodedLicense :=
  let stripped := (pythonUpper key).filter (fun c => c != '-')
  if stripped.length ≠ 16 then none
  else some ⟨planFromCode (stripped.take 4), none, none, none⟩

/-! ## License records and the entitlement store

A row of the `license` table.  Dates are day numbers; `enabled_modules`
holds the module list (the `json.dumps`/`json.loads` round-trip is elided);
`expiry_date` is `none` for a SQL NULL/empty value (the falsy case of
`self._license.get('expiry_date')`). -/

structure LicenseRecord where
  id : Nat
  license_key : String
  machine_fingerprint : String
  plan_type : String
  max_users : Nat
  enabled_modules : List String
  activation_date : Nat
  expiry_date : Option Nat
  is_active : Bool
  is_revoked : Bool
  grace_period_days : Nat
deriving DecidableEq

/-- The SQLite autoincrement id for a fresh row. -/
def nextId (store : List LicenseRecord) : Nat :=
  store.foldl (fun m r => max m r.id) 0 + 1

/-- Embeds `LicenseManager.is_valid` evaluated against a loaded license (`none`
when `self._license is None`), the current host, and today's date. -/
def is_valid (lic : Option LicenseRecord) (host : Host) (today : Nat) : Bool :=
  match lic with
  | none => false
  | some l =>
    if l.is_revoked then false
    else if l.machine_fingerprint != "" &&
        !(MachineFingerprint.verify l.machine_fingerprint host) then false
    else
      match l.expiry_date with
      | none => true
      | some expiry => !(decide (today > expiry + l.grace_period_days))

/-- The new-record construction and store update at the end of
`LicenseManager.activate`: compute plan defaults, apply decoded overrides,
bind the current fingerprint, run `UPDATE license SET is_active = 0`, then
insert the new active row. -/
def insertNewLicense (store : List LicenseRecord) (host : Host) (today : Nat)
    (license_key : String) (data : DecodedLicense) : List LicenseRecord :=
  let machine_fp := MachineFingerprint.generate host
  let plan_config := (PLAN_CONFIG data.plan).getD
    ⟨"Basic ERP", 1, ["dashboard", "billing", "inventory", "customers"],
      365, 4999⟩
  let expiry_date := data.expiry.getD (today + plan_config.duration_days)
  let license_record : LicenseRecord :=
    { id := nextId store,
      license_key := license_key,
      machine_fingerprint := machine_fp,
      plan_type := data.plan,
      max_users := data.max_users.getD plan_config.max_users,
      enabled_modules := data.modules.getD plan_config.modules,
      activation_date := today,
      expiry_date := some expiry_date,
      is_active := true,
      is_revoked := false,
      grace_period_days := 7 }
  store.map (fun r => { r with is_active := false }) ++ [license_record]

/-- Embeds `LicenseManager.activate`: validate the key shape, decode it, reject a
key already bound to a different machine, then deactivate all rows and
insert the new active one.  Returns the updated store or the
`LicenseError` message. -/
def activate (store : List LicenseRecord) (host : Host) (today : Nat)
    (license_key : String) : Except String (List LicenseRecord) :=
  if !validate_key_format license_key then
    .error "Invalid license key format"
  else
    match decode_license_key license_key with
    | none => .error "Invalid or corrupted license key"
    | some license_data =>
      match store.find? (fun r => r.license_key == license_key) with
      | some existing =>
        if existing.machine_fingerprint != "" &&
            existing.machine_fingerprint != MachineFingerprint.generate host
        then .error "License already activated on another machine"
        else .ok (insertNewLicense store host today license_key license_data)
      | none => .ok (insertNewLicense store host today license_key license_data)

/-- The process-wide `Session` singleton's fields; `user = none` models
`self.user is None` (not authenticated). -/
structure SessionState where
  user : Option Nat
  role_id : Nat
  role_name : String

/-- A row of the `permissions` table, unique per `(role_id, module)`. -/
structure PermRow where
  role_id : Nat
  module : String
  can_view : Bool
  can_create : Bool
  can_edit : Bool
  can_delete : Bool
  can_export : Bool

/-- The five permission-flag columns (`ACTIONS` in
`src/core/permissions.py`), i.e. the column name interpolated into
`Permission.check_permission`'s query. -/
inductive PermAction where
  | can_view
  | can_create
  | can_edit
  | can_delete
  | can_export

def permField (row : PermRow) : PermAction → Bool
  | .can_view => row.can_view
  | .can_create => row.can_create
  | .can_edit => row.can_edit
  | .can_delete => row.can_delete
  | .can_export => row.can_export

namespace Permission

/-- Embeds `Permission.check_permission` in `src/database/models.py`:
`SELECT {action} FROM permissions WHERE role_id = ? AND module = ?`, then
`bool(row[0]) if row else False`. -/
def check_permission (table : List PermRow) (role_id : Nat) (module : String)
    (action : PermAction) : Bool :=
  match table.find? (fun r => r.role_id == role_id && r.module == module) with
  | some row => permField row action
  | none => false

end Permission

/-- Embeds `check_permission` in `src/core/permissions.py`: `false` when not
authenticated, `true` unconditionally for the `Admin` role, otherwise the
table lookup. -/
def check_permission (session : SessionState) (table : List PermRow)
    (module : String) (action : PermAction) : Bool :=
  match session.user with
  | none => false
  | some _ =>
    if session.role_name == "Admin" then true
    else Permission.check_permission table session.role_id module action

/-! ## Authentication (`login` in `src/core/auth.py`) -/

/-- A row of the `users` table as returned by `User.get_by_username`
(joined with its role name). -/
structure UserRow where
  id : Nat
  username : String
  password_hash : String
  is_active : Bool
  role_id : Nat
  role_name : String

/-- Embeds `login`: look the user up by username, reject a missing user, then a
disabled account, then a wrong password, and otherwise return the user.
`bcrypt.checkpw` is the environment's password oracle `checkpw`. -/
def login (users : List UserRow) (checkpw : String → String → Bool)
    (username password : String) : Except String UserRow :=
  match users.find? (fun u => u.username == username) with
  | none => .error "Invalid username or password"
  | some user =>
    if !user.is_active then .error "Account is disabled. Contact administrator."
    else if !checkpw password user.password_hash then
      .error "Invalid username or password"
    else .ok user

/-! ## Helper lemmas -/

theorem toHexFixed_length (k : Nat) : ∀ n, (toHexFixed k n).length = k := by
  induction k with
  | zero => intro n; rfl
  | succ k ih => intro n; simp [toHexFixed, ih]

/-- Lowercase hexadecimal characters, the alphabet of `hexdigest()`. -/
def isHexChar (c : Char) : Bool :=
  ('0' ≤ c && c ≤ '9') || ('a' ≤ c && c ≤ 'f')

theorem hexDigit_isHex (n : Nat) : isHexChar (hexDigit (n % 16)) = true := by
  have h : n % 16 < 16 := Nat.mod_lt _ (by decide)
  have hall : ∀ m < 16, isHexChar (hexDigit m) = true := by decide
  exact hall _ h

theorem toHexFixed_isHex (k : Nat) :
    ∀ n c, c ∈ toHexFixed k n → isHexChar c = true := by
  induction k with
  | zero => intro n c hc; simp [toHexFixed] at hc
  | succ k ih =>
    intro n c hc
    simp only [toHexFixed, List.mem_append, List.mem_singleton] at hc
    rcases hc with h | h
    · exact ih _ _ h
    · subst h; exact hexDigit_isHex _

theorem sha256HexChars_length (msg : List Nat) :
    (sha256HexChars msg).length = 64 := by
  simp [sha256HexChars, sha256Words, toHexFixed_length]

theorem sha256HexChars_isHex (msg : List Nat) :
    ∀ c ∈ sha256HexChars msg, isHexChar c = true := by
  intro c hc
  simp only [sha256HexChars, sha256Words, List.map_cons, List.map_nil,
    List.flatten_cons, List.flatten_nil, List.mem_append, List.append_nil,
    List.mem_singleton] at hc
  rcases hc with h | h | h | h | h | h | h | h <;> exact toHexFixed_isHex _ _ _ h

theorem login_not_found (users : List UserRow)
    (checkpw : String → String → Bool) (username password : String)
    (h : users.find? (fun x => x.username == username) = none) :
    login users checkpw username password =
      .error "Invalid username or password" := by
  simp [login, h]

theorem login_bad_password (users : List UserRow)
    (checkpw : String → String → Bool) (username password : String)
    (u : UserRow) (hf : users.find? (fun x => x.username == username) = some u)
    (ha : u.is_active = true) (hp : checkpw password u.password_hash = false) :
    login users checkpw username password =
      .error "Invalid username or password" := by
  simp [login, hf, ha, hp]

theorem login_disabled (users : List UserRow)
    (checkpw : String → String → Bool) (username password : String)
    (u : UserRow) (hf : users.find? (fun x => x.username == username) = some u)
    (ha : u.is_active = false) :
    login users checkpw username password =
      .error "Account is disabled. Contact administrator." := by
  simp [login, hf, ha]

/-- A sample activated license record bound to `host0`, expiring on day 100
with the default 7-day grace period. -/
def sampleLicense : LicenseRecord :=
  { id := 1, license_key := "PROF-AB12-CD34-EF56",
    machine_fingerprint := MachineFingerprint.generate host0,
    plan_type := "PRO", max_users := 3,
    enabled_modules := ["dashboard", "billing", "inventory", "customers",
      "vendors", "accounts", "reports"],
    activation_date := 0, expiry_date := some 100, is_active := true,
    is_revoked := false, grace_period_days := 7 }

/-! ## Claims -/

/-- C1: for every active license record that is not revoked and whose
machine fingerprint matches the current machine, with expiry date `D` and
grace period `G`, `is_valid` returns `true` exactly for `today ≤ D + G`
(including the grace window `D < today ≤ D + G`) and `false` for every
`today > D + G`. -/
theorem C1_grace_period_validity (l : LicenseRecord) (host : Host)
    (today D G : Nat) (hact : l.is_active = true) (hrev : l.is_revoked = false)
    (hfp : l.machine_fingerprint = MachineFingerprint.generate host)
    (hexp : l.expiry_date = some D) (hgr : l.grace_period_days = G) :
    is_valid (some l) host today = true ↔ today ≤ D + G := by
  simp [is_valid, hrev, hfp, hexp, hgr, MachineFingerprint.verify]

/-- Closed instance of C1: on day `107 = 100 + 7` the sample license is
still valid. -/
theorem C1_grace_period_validity_witness :
    is_valid (some sampleLicense) host0 107 = true :=
  (C1_grace_period_validity sampleLicense host0 107 100 7 rfl rfl rfl rfl
    rfl).mpr (by decide)

/-- C6: for every authenticated session, `check_permission` returns `true`
for the `Admin` role regardless of the permission table (including an empty
one), and returns `false` (fail-closed) for a non-Admin role when no
permission row exists for the session's role and the module. -/
theorem C6_admin_bypass_and_fail_closed (session : SessionState)
    (table : List PermRow) (module : String) (action : PermAction)
    (uid : Nat) :
    (session.user = some uid → session.role_name = "Admin" →
      check_permission session table module action = true) ∧
    (session.user = some uid → session.role_name ≠ "Admin" →
      table.find?
          (fun r => r.role_id == session.role_id && r.module == module) = none →
      check_permission session table module action = false) := by
  constructor
  · intro hu hA
    simp [check_permission, hu, hA]
  · intro hu hA hf
    simp [check_permission, hu, Permission.check_permission, hf, hA]

/-- Closed instance of C6: an Admin session passes `can_delete` on an empty
table; a Sales session fails `can_view` on an empty table. -/
theorem C6_admin_bypass_and_fail_closed_witness :
    check_permission ⟨some 1, 1, "Admin"⟩ [] "billing" PermAction.can_delete
        = true ∧
    check_permission ⟨some 2, 3, "Sales"⟩ [] "billing" PermAction.can_view
        = false :=
  ⟨(C6_admin_bypass_and_fail_closed ⟨some 1, 1, "Admin"⟩ [] "billing"
      PermAction.can_delete 1).1 rfl rfl,
   (C6_admin_bypass_and_fail_closed ⟨some 2, 3, "Sales"⟩ [] "billing"
      PermAction.can_view 2).2 rfl (by decide) rfl⟩

/-- C9: a login with an unknown username and a login with a known, enabled
username but wrong password raise `AuthenticationError` with the identical
message "Invalid username or password" (so the two outcomes are equal and
indistinguishable to the caller), while a disabled account raises a
distinct message. -/
theorem C9_login_error_messages (users : List UserRow)
    (checkpw : String → String → Bool) (username password : String) :
    (users.find? (fun x => x.username == username) = none →
      login users checkpw username password =
        .error "Invalid username or password") ∧
    (∀ u, users.find? (fun x => x.username == username) = some u →
      u.is_active = true → checkpw password u.password_hash = false →
      login users checkpw username password =
        .error "Invalid username or password") ∧
    (∀ u, users.find? (fun x => x.username == username) = some u →
      u.is_active = false →
      login users checkpw username password =
        .error "Account is disabled. Contact administrator.") ∧
    (∀ users2 checkpw2 username2 password2 u2,
      users.find? (fun x => x.username == username) = none →
      users2.find? (fun x => x.username == username2) = some u2 →
      u2.is_active = true → checkpw2 password2 u2.password_hash = false →
      login users checkpw username password =
        login users2 checkpw2 username2 password2) ∧
    ("Account is disabled. Contact administrator." ≠
      "Invalid username or password") := by
  refine ⟨fun h => login_not_found _ _ _ _ h,
    fun u hf ha hp => login_bad_password _ _ _ _ u hf ha hp,
    fun u hf ha => login_disabled _ _ _ _ u hf ha,
    fun users2 checkpw2 username2 password2 u2 h1 h2 h3 h4 => ?_,
    by decide⟩
  rw [login_not_found _ checkpw _ password h1,
    login_bad_password _ _ _ _ u2 h2 h3 h4]

/-- Closed instance of C9 at concrete user tables and a concrete password
oracle. -/
theorem C9_login_error_messages_witness :
    login [] (fun p h => p == h) "ghost" "x" =
      .error "Invalid username or password" ∧
    login [⟨1, "alice", "secret", true, 2, "Manager"⟩] (fun p h => p == h)
      "alice" "wrong" = .error "Invalid username or password" ∧
    login [⟨2, "bob", "pw", false, 3, "Sales"⟩] (fun p h => p == h)
      "bob" "pw" = .error "Account is disabled. Contact administrator." :=
  ⟨(C9_login_error_messages [] (fun p h => p == h) "ghost" "x").1 rfl,
   (C9_login_error_messages [⟨1, "alice", "secret", true, 2, "Manager"⟩]
     (fun p h => p == h) "alice" "wrong").2.1 _ rfl rfl rfl,
   (C9_login_error_messages [⟨2, "bob", "pw", false, 3, "Sales"⟩]
     (fun p h => p == h) "bob" "pw").2.2.1 _ rfl rfl⟩

theorem isKeyChar_ne_dash {c : Char} (h : isKeyChar c = true) :
    (c != '-') = true := by
  cases hc : c == '-'
  · simp [bne, hc]
  · exfalso
    have hce : c = '-' := eq_of_beq hc
    subst hce
    exact absurd h (by decide)

/-- Dropping the hyphens from a shape-matching 19-character key leaves its
16 alphanumeric characters (`key.upper().replace('-', '')`). -/
theorem keyShape_filter_len {l : List Char} (h : keyShape l = true) :
    (l.filter (fun c => c != '-')).length = 16 := by
  unfold keyShape at h
  split at h
  case h_1 c0 c1 c2 c3 d0 c4 c5 c6 c7 d1 c8 c9 c10 c11 d2 c12 c13 c14 c15 =>
    simp only [Bool.and_eq_true, beq_iff_eq, and_assoc] at h
    obtain ⟨h0, h1, h2, h3, hd0, h4, h5, h6, h7, hd1,
      h8, h9, h10, h11, hd2, h12, h13, h14, h15⟩ := h
    subst hd0; subst hd1; subst hd2
    simp [List.filter, isKeyChar_ne_dash h0, isKeyChar_ne_dash h1,
      isKeyChar_ne_dash h2, isKeyChar_ne_dash h3, isKeyChar_ne_dash h4,
      isKeyChar_ne_dash h5, isKeyChar_ne_dash h6, isKeyChar_ne_dash h7,
      isKeyChar_ne_dash h8, isKeyChar_ne_dash h9, isKeyChar_ne_dash h10,
      isKeyChar_ne_dash h11, isKeyChar_ne_dash h12, isKeyChar_ne_dash h13,
      isKeyChar_ne_dash h14, isKeyChar_ne_dash h15]
  case h_2 => exact absurd h (by simp)

/-- Dropping the hyphens from a shape-plus-trailing-newline key leaves 17
characters, so `_decode_license_key`'s 16-character check fails. -/
theorem keyShapeNL_filter_len {l : List Char} (h : keyShapeNL l = true) :
    (l.filter (fun c => c != '-')).length = 17 := by
  unfold keyShapeNL at h
  cases hg : l.getLast? with
  | none => rw [hg] at h; exact absurd h (by simp)
  | some c =>
    rw [hg] at h
    simp only [Bool.and_eq_true, beq_iff_eq] at h
    obtain ⟨hc, hks⟩ := h
    subst hc
    have hdecomp : l.dropLast ++ ['\n'] = l :=
      List.dropLast_append_getLast? '\n' (by simp [hg])
    conv_lhs => rw [← hdecomp]
    rw [List.filter_append]
    simp [keyShape_filter_len hks]

theorem decode_of_keyShape {key : String}
    (h : keyShape (pythonUpper key) = true) :
    decode_license_key key =
      some ⟨planFromCode (((pythonUpper key).filter (fun c => c != '-')).take 4),
        none, none, none⟩ := by
  simp [decode_license_key, keyShape_filter_len h]

theorem decode_of_keyShapeNL {key : String}
    (h : keyShapeNL (pythonUpper key) = true) :
    decode_license_key key = none := by
  simp [decode_license_key, keyShapeNL_filter_len h]

theorem activate_invalid_format (store : List LicenseRecord) (host : Host)
    (today : Nat) (key : String) (h1 : keyShape (pythonUpper key) = false)
    (h2 : keyShapeNL (pythonUpper key) = false) :
    activate store host today key = .error "Invalid license key format" := by
  simp [activate, validate_key_format, h1, h2]

theorem activate_newline_key (store : List LicenseRecord) (host : Host)
    (today : Nat) (key : String) (h : keyShapeNL (pythonUpper key) = true) :
    activate store host today key =
      .error "Invalid or corrupted license key" := by
  simp [activate, validate_key_format, h, decode_of_keyShapeNL h]

/-- C4 counterexample: the key `"AAAA-AAAA-AAAA-AAAA\n"` does not match the
shape `XXXX-XXXX-XXXX-XXXX`, yet `activate` does not fail with the invalid
format error: the Python regex `$` accepts the trailing newline, and the
key then fails the decode length check with the distinct
"Invalid or corrupted license key" error. -/
theorem C4_counterexample_newline_key :
    keyShape (pythonUpper "AAAA-AAAA-AAAA-AAAA\n") = false ∧
    activate [] host0 0 "AAAA-AAAA-AAAA-AAAA\n" =
      .error "Invalid or corrupted license key" ∧
    activate [] host0 0 "AAAA-AAAA-AAAA-AAAA\n" ≠
      .error "Invalid license key format" := by
  decide

/-- C4 (amended): every ASCII key that neither matches the shape
`XXXX-XXXX-XXXX-XXXX` (case-insensitively) nor is such a key followed by a
single trailing newline makes `activate` fail with the invalid-format
`LicenseError` (the ASCII restriction is where this embedding of
`str.upper()` is exact; outside it, Python's Unicode case mapping lets
keys such as `"ſAAA-AAAA-AAAA-AAAA"` pass the real format check);
a shape-plus-trailing-newline key instead fails with the
"Invalid or corrupted license key" `LicenseError`; for every shape-matching
key, decoding succeeds (never `none`), and a first-four-character plan code
other than TRIA/BASI/PROF/ENTR resolves to the BASIC plan. -/
theorem C4_format_and_decode :
    (∀ store host today key, isAsciiString key = true →
      keyShape (pythonUpper key) = false →
      keyShapeNL (pythonUpper key) = false →
      activate store host today key = .error "Invalid license key format") ∧
    (∀ store host today key, keyShapeNL (pythonUpper key) = true →
      activate store host today key =
        .error "Invalid or corrupted license key") ∧
    (∀ key, keyShape (pythonUpper key) = true →
      decode_license_key key =
        some ⟨planFromCode
            (((pythonUpper key).filter (fun c => c != '-')).take 4),
          none, none, none⟩) ∧
    (∀ key code, keyShape (pythonUpper key) = true →
      code = ((pythonUpper key).filter (fun c => c != '-')).take 4 →
      code ≠ "TRIA".data → code ≠ "BASI".data → code ≠ "PROF".data →
      code ≠ "ENTR".data →
      decode_license_key key = some ⟨"BASIC", none, none, none⟩) := by
  refine ⟨fun store host today key _ h1 h2 =>
      activate_invalid_format store host today key h1 h2,
    activate_newline_key, fun key h => decode_of_keyShape h, ?_⟩
  intro key code h hcode hT hB hP hE
  rw [decode_of_keyShape h, ← hcode]
  simp [planFromCode, hT, hB, hP, hE]

/-- Closed instance of C4 (amended): a malformed key fails with the format
error, a shape-plus-newline key fails with the corrupted-key error, and an
unknown plan code decodes to BASIC. -/
theorem C4_format_and_decode_witness :
    activate [] host0 0 "BAD" = .error "Invalid license key format" ∧
    activate [] host0 1 "BBBB-BBBB-BBBB-BBBB\n" =
      .error "Invalid or corrupted license key" ∧
    decode_license_key "ZZZZ-AAAA-AAAA-AAAA" =
      some ⟨"BASIC", none, none, none⟩ :=
  ⟨C4_format_and_decode.1 [] host0 0 "BAD" (by decide) (by decide) (by decide),
   C4_format_and_decode.2.1 [] host0 1 "BBBB-BBBB-BBBB-BBBB\n" (by decide),
   C4_format_and_decode.2.2.2 "ZZZZ-AAAA-AAAA-AAAA" _ (by decide) rfl
     (by decide) (by decide) (by decide) (by decide)⟩

/-- C5: when a prior record with the same key exists and every record with
that key is bound to a machine fingerprint differing from the current
machine's, `activate` fails with the already-activated-elsewhere
`LicenseError` (and hence returns no updated store: nothing is inserted). -/
theorem C5_already_activated_elsewhere (store : List LicenseRecord)
    (host : Host) (today : Nat) (key : String)
    (hshape : keyShape (pythonUpper key) = true)
    (hex : ∃ r ∈ store, r.license_key = key)
    (hall : ∀ r ∈ store, r.license_key = key →
      r.machine_fingerprint ≠ "" ∧
      r.machine_fingerprint ≠ MachineFingerprint.generate host) :
    activate store host today key =
      .error "License already activated on another machine" := by
  have hfind : (store.find? (fun r => r.license_key == key)).isSome := by
    rw [List.find?_isSome]
    obtain ⟨r, hr, hk⟩ := hex
    exact ⟨r, hr, by simp [hk]⟩
  obtain ⟨r0, hr0⟩ := Option.isSome_iff_exists.mp hfind
  have hmem := List.mem_of_find?_eq_some hr0
  have hkey : r0.license_key = key := by
    have := List.find?_some hr0
    simpa using this
  obtain ⟨hne, hdiff⟩ := hall r0 hmem hkey
  simp [activate, validate_key_format, hshape, decode_of_keyShape hshape,
    hr0, hne, hdiff]

/-- A license record whose key is already bound to another machine's
fingerprint. -/
def elsewhereLicense : LicenseRecord :=
  { id := 1, license_key := "PROF-AB12-CD34-EF56",
    machine_fingerprint := "ffffffffffffffffffffffffffffffff",
    plan_type := "PRO", max_users := 3, enabled_modules := [],
    activation_date := 0, expiry_date := some 365, is_active := true,
    is_revoked := false, grace_period_days := 7 }

/-- Closed instance of C5: activating the shared key on `host0` fails. -/
theorem C5_already_activated_elsewhere_witness :
    activate [elsewhereLicense] host0 0 "PROF-AB12-CD34-EF56" =
      .error "License already activated on another machine" :=
  C5_already_activated_elsewhere [elsewhereLicense] host0 0
    "PROF-AB12-CD34-EF56" (by decide) (by decide) (by decide)

/-- C7: activating the key `PROF-AB12-CD34-EF56` on an empty store produces
a single active record with plan PRO, `max_users = 3`, the 7 PRO modules,
and expiry date = activation date + 365 days, bound to the current
machine's fingerprint. -/
theorem C7_prof_key_activation (host : Host) (today : Nat) :
    activate [] host today "PROF-AB12-CD34-EF56" =
      .ok [{ id := 1, license_key := "PROF-AB12-CD34-EF56",
             machine_fingerprint := MachineFingerprint.generate host,
             plan_type := "PRO", max_users := 3,
             enabled_modules := ["dashboard", "billing", "inventory",
               "customers", "vendors", "accounts", "reports"],
             activation_date := today, expiry_date := some (today + 365),
             is_active := true, is_revoked := false,
             grace_period_days := 7 }] := rfl

/-- Number of rows of the license table with `is_active = 1`. -/
def countActive (store : List LicenseRecord) : Nat :=
  (store.filter (fun r => r.is_active)).length

theorem countActive_deactivated (store : List LicenseRecord) :
    countActive (store.map (fun r => { r with is_active := false })) = 0 := by
  induction store with
  | nil => rfl
  | cons r rs ih => simpa [countActive, List.filter] using ih

theorem countActive_insertNew (store : List LicenseRecord) (host : Host)
    (today : Nat) (key : String) (data : DecodedLicense) :
    countActive (insertNewLicense store host today key data) = 1 := by
  have h := countActive_deactivated store
  simp only [countActive, insertNewLicense, List.filter_append,
    List.length_append] at *
  simp [h, List.filter]

theorem activate_ok_single_active (store : List LicenseRecord) (host : Host)
    (today : Nat) (key : String) (s2 : List LicenseRecord)
    (h : activate store host today key = .ok s2) : countActive s2 = 1 := by
  unfold activate at h
  split at h
  · exact absurd h (by simp)
  · split at h
    · exact absurd h (by simp)
    · split at h
      · split at h
        · exact absurd h (by simp)
        · simp only [Except.ok.injEq] at h
          subst h
          exact countActive_insertNew ..
      · simp only [Except.ok.injEq] at h
        subst h
        exact countActive_insertNew ..

/-- A sequence of `activate` calls threaded through the store, failing as
soon as one call raises. -/
def activate_all (host : Host) (today : Nat) :
    List String → List LicenseRecord → Except String (List LicenseRecord)
  | [], store => .ok store
  | k :: ks, store =>
    match activate store host today k with
    | .error e => .error e
    | .ok s1 => activate_all host today ks s1

/-- C2: after every non-empty sequence of successful `activate` calls,
starting from any store state, exactly one license record has
`is_active = true` (each activation runs `UPDATE license SET is_active = 0`
before inserting the new record as active). -/
theorem C2_single_active_record (host : Host) (today : Nat) :
    ∀ (keys : List String) (store s2 : List LicenseRecord), keys ≠ [] →
      activate_all host today keys store = .ok s2 → countActive s2 = 1 := by
  intro keys
  induction keys with
  | nil => intro store s2 hne; exact absurd rfl hne
  | cons k ks ih =>
    intro store s2 _ h
    rw [show activate_all host today (k :: ks) store =
      match activate store host today k with
      | .error e => .error e
      | .ok s1 => activate_all host today ks s1 from rfl] at h
    cases hact : activate store host today k with
    | error e => rw [hact] at h; exact absurd h (by simp)
    | ok s1 =>
      rw [hact] at h
      cases ks with
      | nil =>
        simp only [activate_all, Except.ok.injEq] at h
        subst h
        exact activate_ok_single_active store host today k _ hact
      | cons k2 ks2 => exact ih s1 s2 (by simp) h

/-- The store produced by activating `PROF-AB12-CD34-EF56` on day 0 on the
empty store. -/
def proStore : List LicenseRecord :=
  [{ id := 1, license_key := "PROF-AB12-CD34-EF56",
     machine_fingerprint := MachineFingerprint.generate host0,
     plan_type := "PRO", max_users := 3,
     enabled_modules := ["dashboard", "billing", "inventory", "customers",
       "vendors", "accounts", "reports"],
     activation_date := 0, expiry_date := some 365, is_active := true,
     is_revoked := false, grace_period_days := 7 }]

/-- Closed instance of C2: one successful activation on the empty store
leaves exactly one active record. -/
theorem C2_single_active_record_witness : countActive proStore = 1 :=
  C2_single_active_record host0 0 ["PROF-AB12-CD34-EF56"] [] proStore
    (by decide) rfl

/-- C8: on an unchanged machine both fingerprint generators verify their
own output, both produce a hex string of exactly (hence at most) 32
characters, and both `verify` functions are exact string equality with the
recomputed fingerprint — no fuzzy or partial matching. -/
theorem C8_fingerprint_verify_roundtrip (host : Host) (stored : String) :
    (MachineFingerprint.verify (MachineFingerprint.generate host) host
      = true) ∧
    (verify_fingerprint (generate_fingerprint host) host = true) ∧
    ((MachineFingerprint.generate host).length = 32 ∧
      (MachineFingerprint.generate host).length ≤ 32) ∧
    ((generate_fingerprint host).length = 32 ∧
      (generate_fingerprint host).length ≤ 32) ∧
    (∀ c, c ∈ (MachineFingerprint.generate host).data →
      isHexChar c = true) ∧
    (∀ c, c ∈ (generate_fingerprint host).data → isHexChar c = true) ∧
    (MachineFingerprint.verify stored host = true ↔
      MachineFingerprint.generate host = stored) ∧
    (verify_fingerprint stored host = true ↔
      generate_fingerprint host = stored) := by
  have hlen1 : (MachineFingerprint.generate host).length = 32 := by
    simp [MachineFingerprint.generate, String.length, sha256HexOfString,
      sha256HexChars_length]
  have hlen2 : (generate_fingerprint host).length = 32 := by
    simp [generate_fingerprint, String.length, sha256HexOfString,
      sha256HexChars_length]
  refine ⟨by simp [MachineFingerprint.verify],
    by simp [verify_fingerprint],
    ⟨hlen1, le_of_eq hlen1⟩, ⟨hlen2, le_of_eq hlen2⟩, ?_, ?_,
    by simp [MachineFingerprint.verify, beq_iff_eq],
    by simp [verify_fingerprint, beq_iff_eq]⟩
  · intro c hc
    simp only [MachineFingerprint.generate] at hc
    exact sha256HexChars_isHex _ c (List.mem_of_mem_take hc)
  · intro c hc
    simp only [generate_fingerprint] at hc
    exact sha256HexChars_isHex _ c (List.mem_of_mem_take hc)

/-- Closed instance of C8 on the sample host. -/
theorem C8_fingerprint_verify_roundtrip_witness :
    MachineFingerprint.verify (MachineFingerprint.generate host0) host0
      = true ∧
    isHexChar '9' = true :=
  ⟨(C8_fingerprint_verify_roundtrip host0 "").1,
   (C8_fingerprint_verify_roundtrip host0 "").2.2.2.2.1 '9' (by decide)⟩

/-- C10: the two fingerprint implementations disagree.  On the sample host
the license manager's `MachineFingerprint.generate` (which the license is
bound to and validated against) and `generate_fingerprint` in
`machine_fingerprint.py` (which the activation window displays as "Your
Machine ID") return different values: they hash different component
strings (`node|machine|processor|<decimal node id>` versus the non-empty
components among node, machine, CPU id, colon-separated uppercase-hex MAC,
and the two serial numbers). -/
theorem C10_fingerprint_implementations_disagree :
    MachineFingerprint.generate host0 =
      "9be37707388bec3dd766b90848608f98" ∧
    generate_fingerprint host0 = "cba00f5ddf7ba459daa093d5ad8446e2" ∧
    MachineFingerprint.generate host0 ≠ generate_fingerprint host0 := by
  exact ⟨by decide, by decide, by decide⟩
